import Mathlib

/-! Verification of the quantitative analytics core.

Shallow embedding of the Level Engine (`cpr.py`, `levels.py`), the
Indicator Engine (`indicators.py`), the Signal Engine (`scenario_logic.py`)
and the Pricing Engine (`greeks.py`) of the market-dashboard backend,
together with proofs settling the specification claims.

Modelling conventions:
* Python `float` arithmetic is idealised as exact rational (`ℚ`) arithmetic
  for the purely algebraic components, and as real (`ℝ`) arithmetic for the
  Black-Scholes component whose code uses `exp`, `log`, `sqrt` and `erf`.
* Python exceptions (IndexError from indexing an empty list, ZeroDivisionError,
  `math.log` domain errors, parse failures) are modelled as `Option`/`Except`
  error results.
* `datetime.datetime.utcnow()` (wall-clock time) is modelled as an explicit
  `now` parameter: each invocation of the signal generator receives the clock
  value it would observe.
-/

namespace Analytics

/-! ## Level Engine: `cpr.py` and `levels.py` -/

/-- Result record of `compute_cpr_levels` (`cpr.py`): nine pivot levels plus a
CPR classification string. -/
structure CprLevels where
  pivot : ℚ
  bc : ℚ
  tc : ℚ
  s1 : ℚ
  s2 : ℚ
  s3 : ℚ
  r1 : ℚ
  r2 : ℚ
  r3 : ℚ
  cpr_type : String
deriving DecidableEq, Repr

/-- Embedding of `compute_cpr_levels` (`cpr.py`, lines 13-67).  The
`prev_cpr_width` argument is optional exactly as in the source. -/
def compute_cpr_levels (prev_high prev_low prev_close : ℚ)
    (prev_cpr_width : Option ℚ := none)
    (narrow_threshold : ℚ := 6/10) (wide_threshold : ℚ := 14/10) : CprLevels :=
  let pivot := (prev_high + prev_low + prev_close) / 3
  let bc := (prev_high + prev_low) / 2
  let tc := pivot + (pivot - bc)
  let r1 := (2 * pivot) - prev_low
  let s1 := (2 * pivot) - prev_high
  let r2 := pivot + (prev_high - prev_low)
  let s2 := pivot - (prev_high - prev_low)
  let r3 := r2 + (prev_high - prev_low)
  let s3 := s2 - (prev_high - prev_low)
  let width := tc - bc
  let cpr_type :=
    match prev_cpr_width with
    | none => "normal"
    | some w =>
      let rat := width / w
      if rat ≤ narrow_threshold then "narrow"
      else if rat ≥ wide_threshold then "wide"
      else "normal"
  ⟨pivot, bc, tc, s1, s2, s3, r1, r2, r3, cpr_type⟩

/-- Result tuple of `compute_pivot_levels` (`levels.py`): the nine levels
`(pivot, bc, tc, s1, s2, s3, r1, r2, r3)`. -/
structure PivotLevels where
  pivot : ℚ
  bc : ℚ
  tc : ℚ
  s1 : ℚ
  s2 : ℚ
  s3 : ℚ
  r1 : ℚ
  r2 : ℚ
  r3 : ℚ
deriving DecidableEq, Repr

/-- Embedding of `compute_pivot_levels` (`levels.py`, lines 17-50), applied to
the high/low/close of the reference candle. -/
def compute_pivot_levels (high low close : ℚ) : PivotLevels :=
  let pivot := (high + low + close) / 3
  let bc := (high + low) / 2
  let tc := (bc + pivot) / 2
  let s1 := 2 * pivot - high
  let r1 := 2 * pivot - low
  let s2 := pivot - (high - low)
  let r2 := pivot + (high - low)
  let s3 := low - 2 * (high - pivot)
  let r3 := high + 2 * (pivot - low)
  ⟨pivot, bc, tc, s1, s2, s3, r1, r2, r3⟩

/-- The spec's §4.2 level formulas, written exactly as the spec states them
(used only to compare the two source implementations against the spec for the
refinement claim). -/
def spec_pivot_levels (H L C : ℚ) : PivotLevels :=
  let pivot := (H + L + C) / 3
  let bc := (H + L) / 2
  let tc := 2 * pivot - bc
  let s1 := 2 * pivot - H
  let r1 := 2 * pivot - L
  let s2 := pivot - (H - L)
  let r2 := pivot + (H - L)
  let s3 := s2 - (H - L)
  let r3 := r2 + (H - L)
  ⟨pivot, bc, tc, s1, s2, s3, r1, r2, r3⟩

/-! ## Indicator Engine: `indicators.py`

The candle record mirrors the `Candle` pydantic schema (`schemas.py`).  The
`open` field is named `opn` because `open` is a Lean keyword; `time` is an
abstract instant. -/

structure Candle where
  time : ℤ
  opn : ℚ
  high : ℚ
  low : ℚ
  close : ℚ
  volume : ℚ
deriving DecidableEq, Repr

/-- Python's `xs[-n:]`: the last `n` elements (all of `xs` when it is
shorter). -/
def takeLast (xs : List α) (n : ℕ) : List α := xs.drop (xs.length - n)

/-- Python's `max` over a nonempty list (the `[]` case is never used by the
embedded code, which guards emptiness). -/
def listMax : List ℚ → ℚ
  | [] => 0
  | x :: xs => xs.foldl max x

/-- Python's `min` over a nonempty list. -/
def listMin : List ℚ → ℚ
  | [] => 0
  | x :: xs => xs.foldl min x

/-- The tail of `_ema` (`indicators.py`, lines 17-26): given the smoothing
factor `k` and the previous EMA value, produce the remaining EMA values. -/
def emaAux (k : ℚ) (prev : ℚ) : List ℚ → List ℚ
  | [] => []
  | v :: vs => (v * k + prev * (1 - k)) :: emaAux k (v * k + prev * (1 - k)) vs

/-- Embedding of `_ema` (`indicators.py`): seed with the first value, then
`ema[i] = v*k + ema[i-1]*(1-k)` with `k = 2/(period+1)`. -/
def ema (values : List ℚ) (period : ℕ) : List ℚ :=
  match values with
  | [] => []
  | v :: vs => v :: emaAux (2 / ((period : ℚ) + 1)) v vs

/-- Embedding of `calculate_vwap` (`indicators.py`, lines 29-37): the
accumulation loop summed into closed form. -/
def calculate_vwap (candles : List Candle) : ℚ :=
  let cumulative_pv := (candles.map (fun c => (c.high + c.low + c.close) / 3 * c.volume)).sum
  let cumulative_volume := (candles.map Candle.volume).sum
  if cumulative_volume ≠ 0 then cumulative_pv / cumulative_volume else 0

/-- The true-range list of `calculate_atr`: one value per consecutive candle
pair, `max(high−low, |high−prevC|, |low−prevC|)`. -/
def trueRanges : List Candle → List ℚ
  | c0 :: c1 :: rest =>
      max (c1.high - c1.low) (max |c1.high - c0.close| |c1.low - c0.close|) ::
        trueRanges (c1 :: rest)
  | _ => []

/-- Embedding of `calculate_atr` (`indicators.py`, lines 40-53). -/
def calculate_atr (candles : List Candle) (period : ℕ := 14) : ℚ :=
  if candles.length < period + 1 then 0
  else
    let recent_trs := takeLast (trueRanges candles) period
    recent_trs.sum / (recent_trs.length : ℚ)

/-- Consecutive differences `xs[i] - xs[i-1]`, one per adjacent pair. -/
def diffs : List ℚ → List ℚ
  | a :: b :: rest => (b - a) :: diffs (b :: rest)
  | _ => []

/-- Embedding of `calculate_rsi` (`indicators.py`, lines 56-71). -/
def calculate_rsi (candles : List Candle) (period : ℕ := 14) : ℚ :=
  if candles.length < period + 1 then 50
  else
    let changes := diffs (candles.map Candle.close)
    let gains := changes.map (fun x => max x 0)
    let losses := changes.map (fun x => max (-x) 0)
    let avg_gain := (takeLast gains period).sum / (period : ℚ)
    let avg_loss := (takeLast losses period).sum / (period : ℚ)
    if avg_loss = 0 then 100
    else 100 - 100 / (1 + avg_gain / avg_loss)

/-- The %K computation shared by `calculate_stochastic` and
`compute_indicator_series`: `(close − lowest low)/(highest high − lowest low)
× 100` over a window, with the 50 sentinel on a degenerate range. -/
def stochK (window : List Candle) : ℚ :=
  let hh := listMax (window.map Candle.high)
  let ll := listMin (window.map Candle.low)
  let cc := (window.map Candle.close).getLastD 0
  if hh = ll then 50 else (cc - ll) / (hh - ll) * 100

/-- Embedding of `calculate_stochastic` (`indicators.py`, lines 74-105).  The
`%D` loop takes windows `candles[-(period-i):]` for `i = 0, 1, 2` — windows of
shrinking length all ending at the latest bar (the `if not subset: continue`
guard never fires once the length guard has passed). -/
def calculate_stochastic (candles : List Candle) (period : ℕ := 14) : ℚ × ℚ :=
  if candles.length < period then (50, 50)
  else
    let k := stochK (takeLast candles period)
    let ks := ([0, 1, 2] : List Nat).filterMap (fun i =>
      if (takeLast candles (period - i)).isEmpty then none
      else some (stochK (takeLast candles (period - i))))
    let d := if ks.isEmpty then k else ks.sum / (ks.length : ℚ)
    (k, d)

/-- Embedding of `calculate_volume_ma` (`indicators.py`, lines 108-111). -/
def calculate_volume_ma (candles : List Candle) (period : ℕ := 20) : ℚ :=
  let vols := (takeLast candles period).map Candle.volume
  if vols ≠ [] then vols.sum / (vols.length : ℚ) else 0

/-- Embedding of `calculate_emas` (`indicators.py`, lines 114-121).
`ema_series[-1]` raises `IndexError` when the candle list is empty, modelled
by `getLast? = none`. -/
def calculate_emas (candles : List Candle) (periods : List ℕ) : Option (List ℚ) :=
  let closes := candles.map Candle.close
  periods.mapM (fun p => (ema closes p).getLast?)

/-- The indicator bag returned by `compute_indicators`. -/
structure Indicators where
  ema9 : ℚ
  ema21 : ℚ
  ema50 : ℚ
  ema200 : ℚ
  vwap : ℚ
  atr : ℚ
  rsi : ℚ
  stoch_k : ℚ
  stoch_d : ℚ
  volume_ma : ℚ
deriving DecidableEq, Repr

/-- Embedding of `compute_indicators` (`indicators.py`, lines 124-143).
`none` models the `IndexError` escaping from `calculate_emas` on an empty
candle list. -/
def compute_indicators (candles : List Candle) : Option Indicators :=
  match calculate_emas candles [9, 21, 50, 200] with
  | some [e9, e21, e50, e200] =>
      let vwap := calculate_vwap candles
      let atr := calculate_atr candles 14
      let rsi := calculate_rsi candles 14
      let sk := (calculate_stochastic candles 14).1
      let sd := (calculate_stochastic candles 14).2
      let vol_ma := calculate_volume_ma candles 20
      some ⟨e9, e21, e50, e200, vwap, atr, rsi, sk, sd, vol_ma⟩
  | _ => none

/-- The stochastic block of `compute_indicator_series` (`indicators.py`,
lines 227-254), keeping the (%K, %D) value pairs and dropping the time
labels.  `none` stands for the source's `None` entries.  The loop index `i`
and the accumulated `k_values` are explicit. -/
def stochSeriesLoop (candles : List Candle) (period : ℕ) (i : ℕ) (k_values : List ℚ) :
    List (Option ℚ × Option ℚ) :=
  if h : i < candles.length then
    if i < period - 1 then (none, none) :: stochSeriesLoop candles period (i + 1) k_values
    else
      let window := (candles.drop (i + 1 - period)).take period
      let k := stochK window
      let k_values' := k_values ++ [k]
      let d := if k_values'.length < 3 then none else some ((takeLast k_values' 3).sum / 3)
      (some k, d) :: stochSeriesLoop candles period (i + 1) k_values'
  else []
termination_by candles.length - i

/-- The stochastic %K/%D series of `compute_indicator_series`. -/
def stoch_series (candles : List Candle) (period : ℕ := 14) : List (Option ℚ × Option ℚ) :=
  stochSeriesLoop candles period 0 []

/-- The %K value at bar index `j` of the series computation: `stochK` over the
trailing 14-bar window `candles[j-13 .. j]` (meaningful for `13 ≤ j <
candles.length`). -/
def kAt (candles : List Candle) (j : ℕ) : ℚ :=
  stochK ((candles.drop (j + 1 - 14)).take 14)

/-- Declarative description of one (%K, %D) entry of the stochastic series:
no values before index 13; %K from the trailing 14-bar window ending at `j`;
%D the average of the three consecutive-window %K values ending at `j`, absent
while fewer than three exist. -/
def stochEntry (candles : List Candle) (j : ℕ) : Option ℚ × Option ℚ :=
  if j < 13 then (none, none)
  else (some (kAt candles j),
    if j < 15 then none
    else some ((kAt candles (j - 2) + kAt candles (j - 1) + kAt candles j) / 3))

/-- The `k_values` accumulator contents of the series loop upon reaching bar
index `i`: the %K values of bars 13, 14, …, i−1. -/
def kvalsUpTo (candles : List Candle) (i : ℕ) : List ℚ :=
  (List.range (i - 13)).map (fun m => kAt candles (13 + m))

/-- A concrete 16-bar candle window: bar `j` has open 0, high 100, low 0,
close `j`, volume 1, so every stochastic window has range 100 and %K at bar
`j` equals `j`. -/
def ex16 : List Candle :=
  [⟨0, 0, 100, 0, 0, 1⟩, ⟨1, 0, 100, 0, 1, 1⟩, ⟨2, 0, 100, 0, 2, 1⟩, ⟨3, 0, 100, 0, 3, 1⟩,
   ⟨4, 0, 100, 0, 4, 1⟩, ⟨5, 0, 100, 0, 5, 1⟩, ⟨6, 0, 100, 0, 6, 1⟩, ⟨7, 0, 100, 0, 7, 1⟩,
   ⟨8, 0, 100, 0, 8, 1⟩, ⟨9, 0, 100, 0, 9, 1⟩, ⟨10, 0, 100, 0, 10, 1⟩, ⟨11, 0, 100, 0, 11, 1⟩,
   ⟨12, 0, 100, 0, 12, 1⟩, ⟨13, 0, 100, 0, 13, 1⟩, ⟨14, 0, 100, 0, 14, 1⟩, ⟨15, 0, 100, 0, 15, 1⟩]

/-! ## Signal Engine: `scenario_logic.py`

`generate_signal` is embedded with its external collaborators made explicit:
the day's pivot levels (read from or written to the database in the source)
and the user risk configuration are parameters, and the wall-clock
`datetime.datetime.utcnow()` is the `now` parameter.  `pdh`/`pdl` reuse
`r1`/`s1` exactly as the source does. -/

/-- Python's `round` to an integer: round-half-to-even. -/
def roundHalfEven (x : ℚ) : ℤ :=
  if x - ⌊x⌋ = 1/2 then (if ⌊x⌋ % 2 = 0 then ⌊x⌋ else ⌊x⌋ + 1) else round x

/-- Python's `round(x, 2)`. -/
def round2 (x : ℚ) : ℚ := (roundHalfEven (x * 100) : ℚ) / 100

/-- Python's `int()` conversion: truncation toward zero. -/
def pyInt (x : ℚ) : ℤ := if 0 ≤ x then ⌊x⌋ else -⌊-x⌋

/-- The `SignalData` record returned by `generate_signal` (`schemas.py`);
`timestamp` is an abstract instant. -/
structure SignalData where
  timestamp : ℤ
  symbol : String
  scenario : String
  direction : String
  entry_price : ℚ
  stop_price : ℚ
  target_price : ℚ
  risk_reward : ℚ
  position_size : ℤ
  confidence : ℚ
  reason : String
deriving DecidableEq, Repr

/-- The `compute_conf` helper of `generate_signal` (`scenario_logic.py`,
lines 144-148). -/
def compute_conf (volume_ratio : ℚ) (ema_align : Bool) (momentum : ℚ) : ℚ :=
  let vol_score := min (volume_ratio / 2) 1
  let ema_score : ℚ := if ema_align then 1 else 0
  let mom_score := max (min momentum 1) 0
  round2 (4/10 * vol_score + 3/10 * ema_score + 3/10 * mom_score)

/-- The scenario-identification block of `generate_signal`
(`scenario_logic.py`, lines 127-241): first matching scenario wins, later
blocks run only while `scenario == "None"`.  Returns
`(scenario, direction, entry, stop, target, confidence, reason)`, or `none`
when no scenario fires.  (The division `current_volume / volume_ma` follows
the ℚ convention `x/0 = 0` on the measure-zero inputs where Python would
raise `ZeroDivisionError` inside `compute_conf`.) -/
def scenario_selection (candles : List Candle) (latest_candle : Candle) (ind : Indicators)
    (pivot bc tc s1 r1 risk_reward : ℚ) :
    Option (String × String × ℚ × ℚ × ℚ × ℚ × String) :=
  let close_price := latest_candle.close
  let current_volume := latest_candle.volume
  let pdh := r1
  let pdl := s1
  let tolerance := 2/10 * ind.atr
  let momentum_long := ind.rsi > 60
  let momentum_short := ind.rsi < 40
  -- Scenario 1: Trend/Breakout (`if` long, `elif` short, nested retest check)
  let step1 : Option (String × String × ℚ × ℚ × ℚ × ℚ × String) :=
    if close_price > tc ∧ current_volume > 12/10 * ind.volume_ma ∧
        ind.ema9 > ind.ema21 ∧ momentum_long then
      if (takeLast candles 5).any (fun c => |c.low - tc| ≤ tolerance) then
        some ("TrendBreakout", "long", close_price, bc,
          close_price + risk_reward * (close_price - bc),
          compute_conf (current_volume / ind.volume_ma) true ((ind.rsi - 50) / 50),
          "Price closed above TC with high volume; EMAs aligned bullish; retest confirmed")
      else none
    else if close_price < bc ∧ current_volume > 12/10 * ind.volume_ma ∧
        ind.ema9 < ind.ema21 ∧ momentum_short then
      if (takeLast candles 5).any (fun c => |c.high - bc| ≤ tolerance) then
        some ("TrendBreakout", "short", close_price, tc,
          close_price - risk_reward * (tc - close_price),
          compute_conf (current_volume / ind.volume_ma) true ((50 - ind.rsi) / 50),
          "Price closed below BC with high volume; EMAs aligned bearish; retest confirmed")
      else none
    else none
  -- Scenario 2: Pullback/Continuation (long and short, each guarded by
  -- `scenario == "None"`)
  let prev_candle := if 2 ≤ candles.length then (takeLast candles 2).headD latest_candle
    else latest_candle
  let step2long : Option (String × String × ℚ × ℚ × ℚ × ℚ × String) :=
    if ind.ema9 > ind.ema21 ∧ momentum_long then
      if |close_price - pivot| ≤ tolerance ∨ |close_price - r1| ≤ tolerance then
        if latest_candle.close > latest_candle.opn ∧ current_volume > prev_candle.volume then
          some ("PullbackContinuation", "long", close_price, bc,
            close_price + risk_reward * (close_price - bc),
            compute_conf (current_volume / ind.volume_ma) true ((ind.rsi - 50) / 50),
            "Uptrend with pullback to pivot/PDH; bullish candle with rising volume")
        else none
      else none
    else none
  let step2short : Option (String × String × ℚ × ℚ × ℚ × ℚ × String) :=
    if ind.ema9 < ind.ema21 ∧ momentum_short then
      if |close_price - pivot| ≤ tolerance ∨ |close_price - s1| ≤ tolerance then
        if latest_candle.close < latest_candle.opn ∧ current_volume > prev_candle.volume then
          some ("PullbackContinuation", "short", close_price, tc,
            close_price - risk_reward * (tc - close_price),
            compute_conf (current_volume / ind.volume_ma) true ((50 - ind.rsi) / 50),
            "Downtrend with pullback to pivot/PDL; bearish candle with rising volume")
        else none
      else none
    else none
  -- Scenario 3: Reversal/Range bound (guarded by `scenario == "None"` and
  -- `atr > 0`)
  let step3 : Option (String × String × ℚ × ℚ × ℚ × ℚ × String) :=
    if ind.atr > 0 then
      let wick_long := (latest_candle.high - latest_candle.close) /
        max (latest_candle.high - latest_candle.low) (1/1000000)
      let wick_short := (latest_candle.close - latest_candle.low) /
        max (latest_candle.high - latest_candle.low) (1/1000000)
      let high_at_res := |close_price - r1| ≤ tolerance ∨ |close_price - pdh| ≤ tolerance
      let low_at_sup := |close_price - s1| ≤ tolerance ∨ |close_price - pdl| ≤ tolerance
      let volume_decline := current_volume < ind.volume_ma
      let high_atr := ind.atr >
        8/10 * (((takeLast candles 14).map (fun c => |c.high - c.low|)).sum / 14)
      if low_at_sup ∧ wick_short > 6/10 ∧ volume_decline ∧ high_atr ∧ momentum_long then
        some ("Reversal", "long", close_price, latest_candle.low,
          close_price + 15/10 * (close_price - latest_candle.low),
          compute_conf (current_volume / ind.volume_ma) true ((ind.rsi - 50) / 50),
          "Exhaustion at support; long wick; declining volume; high ATR")
      else if high_at_res ∧ wick_long > 6/10 ∧ volume_decline ∧ high_atr ∧ momentum_short then
        some ("Reversal", "short", close_price, latest_candle.high,
          close_price - 15/10 * (latest_candle.high - close_price),
          compute_conf (current_volume / ind.volume_ma) true ((50 - ind.rsi) / 50),
          "Exhaustion at resistance; long wick; declining volume; high ATR")
      else none
    else none
  step1 <|> step2long <|> step2short <|> step3

/-- Embedding of `generate_signal` (`scenario_logic.py`, lines 25-277) with
candles, day levels, risk configuration and the clock passed explicitly.
`scenario_logic.py` imports `compute_indicators` from its sibling
`utils/indicators` module, which is not in the repository snapshot; the
same-named `compute_indicators` of `app/utils/indicators.py` stands in for
it (any pure indicator variant gives the same determinism verdict). -/
def generate_signal (symbol : String) (candles : List Candle)
    (pivot bc tc s1 r1 : ℚ) (risk_per_trade risk_reward : ℚ) (now : ℤ) : SignalData :=
  match candles.getLast?, compute_indicators candles with
  | some latest_candle, some ind =>
      match scenario_selection candles latest_candle ind pivot bc tc s1 r1 risk_reward with
      | none =>
          { timestamp := now, symbol := symbol, scenario := "None", direction := "neutral",
            entry_price := latest_candle.close, stop_price := latest_candle.close,
            target_price := latest_candle.close, risk_reward := 0, position_size := 0,
            confidence := 0, reason := "No valid trading scenario detected" }
      | some (scenario, direction, entry_price, stop_price, target_price, confidence, reason) =>
          let risk := |entry_price - stop_price|
          let position_size : ℤ := if risk > 0 then pyInt (risk_per_trade / risk) else 0
          { timestamp := now, symbol := symbol, scenario := scenario, direction := direction,
            entry_price := round2 entry_price, stop_price := round2 stop_price,
            target_price := round2 target_price, risk_reward := round2 risk_reward,
            position_size := position_size, confidence := confidence, reason := reason }
  | _, _ =>
      { timestamp := now, symbol := symbol, scenario := "None", direction := "neutral",
        entry_price := 0, stop_price := 0, target_price := 0, risk_reward := 0,
        position_size := 0, confidence := 0, reason := "No data available" }

/-! ## Pricing Engine: `greeks.py`

Black-Scholes pricing works over `ℝ`; Python's `math.log` domain error and
the division by a zero strike are modelled as `Except` errors.  Calendar
dates mirror `datetime.date`: construction validates the triple, and
subtraction is the difference of proleptic-Gregorian ordinals, exactly
Python's `date.toordinal` arithmetic.  `datetime.date.today()` is an explicit
`today` parameter. -/

/-- A calendar date as `datetime.date` holds it. -/
structure Date where
  year : ℕ
  month : ℕ
  day : ℕ
deriving DecidableEq, Repr

/-- `calendar.isleap` as used by `datetime.date`. -/
def isLeapYear (y : ℕ) : Prop := (y % 4 = 0 ∧ y % 100 ≠ 0) ∨ y % 400 = 0

instance (y : ℕ) : Decidable (isLeapYear y) := by unfold isLeapYear; infer_instance

/-- Days in a month, as `datetime.date` validates them. -/
def daysInMonth (y m : ℕ) : ℕ :=
  if m = 2 then (if isLeapYear y then 29 else 28)
  else if m = 4 ∨ m = 6 ∨ m = 9 ∨ m = 11 then 30
  else 31

/-- Days before the first of month `m` in year `y` (the `_days_before_month`
table of `datetime`). -/
def daysBeforeMonth (y m : ℕ) : ℕ :=
  (if m ≤ 1 then 0 else if m = 2 then 31 else if m = 3 then 59 else if m = 4 then 90
   else if m = 5 then 120 else if m = 6 then 151 else if m = 7 then 181 else if m = 8 then 212
   else if m = 9 then 243 else if m = 10 then 273 else if m = 11 then 304 else 334) +
  (if isLeapYear y ∧ 2 < m then 1 else 0)

/-- The `datetime.date(year, month, day)` constructor: validates ranges
(`ValueError` on failure). -/
def mkDate (y m d : ℕ) : Except String Date :=
  if 1 ≤ y ∧ y ≤ 9999 ∧ 1 ≤ m ∧ m ≤ 12 ∧ 1 ≤ d ∧ d ≤ daysInMonth y m then .ok ⟨y, m, d⟩
  else .error "ValueError: invalid date"

/-- `datetime.date.toordinal`: day number in the proleptic Gregorian
calendar, with 0001-01-01 as day 1; date subtraction is the difference of
ordinals. -/
def toOrdinal (d : Date) : ℕ :=
  365 * (d.year - 1) + (d.year - 1) / 4 - (d.year - 1) / 100 + (d.year - 1) / 400 +
    daysBeforeMonth d.year d.month + d.day

/-- Python's `int(s)` restricted to the all-digits grammar that option
symbols use (`ValueError` otherwise, as `int` raises on any other text
appearing in a symbol). -/
def pyIntNat (s : List Char) : Except String ℕ :=
  if s ≠ [] ∧ s.all Char.isDigit then
    .ok (s.foldl (fun a c => 10 * a + (c.toNat - 48)) 0)
  else .error "ValueError: invalid literal for int()"

open scoped Classical

/-- Python's `float(s)` restricted to the all-digits grammar that option
symbol strikes use (`ValueError` otherwise). -/
noncomputable def pyFloat (s : List Char) : Except String ℝ :=
  if s ≠ [] ∧ s.all Char.isDigit then
    .ok ((s.foldl (fun a c => 10 * a + (c.toNat - 48)) 0 : ℕ) : ℝ)
  else .error "ValueError: could not convert string to float"

/-- The Gauss error function, which `math.erf` computes:
`erf x = 2/√π · ∫₀ˣ e^(−t²) dt`. -/
noncomputable def erf (x : ℝ) : ℝ :=
  (2 / Real.sqrt Real.pi) * ∫ t in (0:ℝ)..x, Real.exp (-(t ^ 2))

/-- Embedding of `norm_cdf` (`greeks.py`, lines 21-23). -/
noncomputable def norm_cdf (x : ℝ) : ℝ := 0.5 * (1 + erf (x / Real.sqrt 2))

/-- Embedding of `norm_pdf` (`greeks.py`, lines 26-28). -/
noncomputable def norm_pdf (x : ℝ) : ℝ :=
  (1 / Real.sqrt (2 * Real.pi)) * Real.exp (-0.5 * x * x)

/-- Embedding of `black_scholes_price` (`greeks.py`, lines 56-88).  The
errors model `ZeroDivisionError` on `S/K` with `K = 0` and `math.log`'s
domain error on `S/K ≤ 0`. -/
noncomputable def black_scholes_price (S K T r q sigma : ℝ) (option_type : String) :
    Except String ℝ :=
  if T ≤ 0 ∨ sigma ≤ 0 then
    if option_type = "C" then .ok (max (S - K) 0) else .ok (max (K - S) 0)
  else if K = 0 then .error "ZeroDivisionError: float division by zero"
  else if S / K ≤ 0 then .error "ValueError: math domain error"
  else
    let d1 := (Real.log (S / K) + (r - q + 0.5 * sigma * sigma) * T) / (sigma * Real.sqrt T)
    let d2 := d1 - sigma * Real.sqrt T
    if option_type = "C" then
      .ok (S * Real.exp (-q * T) * norm_cdf d1 - K * Real.exp (-r * T) * norm_cdf d2)
    else
      .ok (K * Real.exp (-r * T) * norm_cdf (-d2) - S * Real.exp (-q * T) * norm_cdf (-d1))

/-- Embedding of `greeks` (`greeks.py`, lines 91-131), returning
`(delta, gamma, theta, vega, rho, price)`. -/
noncomputable def greeks (S K T r q sigma : ℝ) (option_type : String) :
    Except String (ℝ × ℝ × ℝ × ℝ × ℝ × ℝ) :=
  if T ≤ 0 ∨ sigma ≤ 0 then
    match black_scholes_price S K T r q sigma option_type with
    | .error e => .error e
    | .ok price =>
        let delta : ℝ := if option_type = "C" ∧ S > K then 1 else -1
        .ok (delta, 0, 0, 0, 0, price)
  else if K = 0 then .error "ZeroDivisionError: float division by zero"
  else if S / K ≤ 0 then .error "ValueError: math domain error"
  else
    let d1 := (Real.log (S / K) + (r - q + 0.5 * sigma * sigma) * T) / (sigma * Real.sqrt T)
    let d2 := d1 - sigma * Real.sqrt T
    let pdf := norm_pdf d1
    let delta := if option_type = "C" then Real.exp (-q * T) * norm_cdf d1
      else -Real.exp (-q * T) * norm_cdf (-d1)
    let theta := if option_type = "C" then
        -(S * pdf * sigma * Real.exp (-q * T)) / (2 * Real.sqrt T)
          - r * K * Real.exp (-r * T) * norm_cdf d2
          + q * S * Real.exp (-q * T) * norm_cdf d1
      else
        -(S * pdf * sigma * Real.exp (-q * T)) / (2 * Real.sqrt T)
          + r * K * Real.exp (-r * T) * norm_cdf (-d2)
          - q * S * Real.exp (-q * T) * norm_cdf (-d1)
    let rho := if option_type = "C" then K * T * Real.exp (-r * T) * norm_cdf d2
      else -(K * T * Real.exp (-r * T) * norm_cdf (-d2))
    let gamma := (Real.exp (-q * T) * pdf) / (S * sigma * Real.sqrt T)
    let vega := S * Real.exp (-q * T) * pdf * Real.sqrt T
    match black_scholes_price S K T r q sigma option_type with
    | .error e => .error e
    | .ok price => .ok (delta, gamma, theta, vega, rho, price)

/-- The Newton-Raphson loop of `implied_volatility` (`greeks.py`, lines
148-159), with the remaining iteration count explicit; exiting the loop (by
exhaustion, tolerance, or zero vega) returns `max sigma 0.0001`. -/
noncomputable def ivLoop (S K T r q : ℝ) (option_type : String)
    (market_price tolerance : ℝ) : ℕ → ℝ → Except String ℝ
  | 0, sigma => .ok (max sigma 0.0001)
  | n + 1, sigma =>
    match greeks S K T r q sigma option_type with
    | .error e => .error e
    | .ok (_delta_, _gamma_, _theta_, vega_, _rho_, price) =>
      if |price - market_price| < tolerance then .ok (max sigma 0.0001)
      else if vega_ = 0 then .ok (max sigma 0.0001)
      else
        let sigma' := sigma - (price - market_price) / (vega_ / 100)
        ivLoop S K T r q option_type market_price tolerance n (max (min sigma' 5) 1e-4)

/-- Embedding of `implied_volatility` (`greeks.py`, lines 134-160). -/
noncomputable def implied_volatility (market_price S K T r q : ℝ) (option_type : String)
    (initial_guess : ℝ := 0.25) (tolerance : ℝ := 1e-4) (max_iterations : ℕ := 100) :
    Except String ℝ :=
  ivLoop S K T r q option_type market_price tolerance max_iterations (max initial_guess 1e-4)

/-- Embedding of `parse_option_symbol` (`greeks.py`, lines 31-53), operating
on the symbol's character list.  `symbol[11]` raises `IndexError` on short
symbols before any numeric parsing, matching the source's statement order. -/
noncomputable def parse_option_symbol (symbol : String) :
    Except String (String × Date × ℝ × String) :=
  let chars := symbol.data
  let underlying := String.mk ((chars.take 5).map Char.toUpper)
  let date_str := (chars.drop 5).take 6
  if chars.length < 12 then .error "IndexError: string index out of range"
  else
    let option_type := String.mk ((chars.drop 11).take 1 |>.map Char.toUpper)
    let strike_str := chars.drop 12
    match pyIntNat (date_str.take 2) with
    | .error e => .error e
    | .ok yy =>
      match pyIntNat ((date_str.drop 2).take 2) with
      | .error e => .error e
      | .ok month =>
        match pyIntNat ((date_str.drop 4).take 2) with
        | .error e => .error e
        | .ok day =>
          match mkDate (2000 + yy) month day with
          | .error e => .error e
          | .ok expiry_date =>
            match pyFloat strike_str with
            | .error e => .error e
            | .ok strike => .ok (underlying, expiry_date, strike, option_type)

/-- The `OptionGreeks` dataclass of `greeks.py` (lines 163-208). -/
structure OptionGreeks where
  option_symbol : String
  expiry : Date
  strike : ℝ
  option_type : String
  underlying_price : ℝ
  implied_volatility : ℝ
  option_price : ℝ
  delta : ℝ
  gamma : ℝ
  theta : ℝ
  vega : ℝ
  rho : ℝ
  intrinsic_value : ℝ
  time_value : ℝ
  entry_price : ℝ
  stop_price : ℝ
  target_price : ℝ
  risk_reward : ℝ
  position_size : ℤ
  moneyness_percent : ℝ
  status : String

/-- Embedding of `compute_option_metrics` (`greeks.py`, lines 211-312), with
`datetime.date.today()` passed as `today`. -/
noncomputable def compute_option_metrics (option_symbol : String)
    (underlying_price r q iv_guess risk_reward : ℝ) (position_size : ℤ)
    (stop_underlying target_underlying risk_per_trade : ℝ) (today : Date) :
    Except String OptionGreeks :=
  match parse_option_symbol option_symbol with
  | .error e => .error e
  | .ok (_underlying, expiry_date, strike, opt_type) =>
  let days_to_expiry : ℤ := max ((toOrdinal expiry_date : ℤ) - (toOrdinal today : ℤ)) 0
  let T : ℝ := (days_to_expiry : ℝ) / 365
  let sigma := max iv_guess 0.0001
  match greeks underlying_price strike T (r / 100) (q / 100) sigma opt_type with
  | .error e => .error e
  | .ok (delta_, gamma_, theta_, vega_, rho_, price) =>
    let intrinsic := if opt_type = "C" then max (underlying_price - strike) 0
      else max (strike - underlying_price) 0
    let time_value := max (price - intrinsic) 0
    let option_stop := price - |underlying_price - stop_underlying| * |delta_|
    let option_target := price + |target_underlying - underlying_price| * |delta_|
    let option_stop := max option_stop 0.01
    let option_target := max option_target (option_stop + 0.01)
    let moneyness_percent := if strike > 0 then ((underlying_price - strike) / strike) * 100
      else 0
    let tolerance : ℝ := 0.5
    let status := if opt_type = "C" then
        (if moneyness_percent > tolerance then "ITM"
         else if moneyness_percent < -tolerance then "OTM" else "ATM")
      else
        (if moneyness_percent < -tolerance then "ITM"
         else if moneyness_percent > tolerance then "OTM" else "ATM")
    .ok { option_symbol := option_symbol, expiry := expiry_date, strike := strike,
             option_type := opt_type, underlying_price := underlying_price,
             implied_volatility := sigma, option_price := price, delta := delta_,
             gamma := gamma_, theta := theta_, vega := vega_, rho := rho_,
             intrinsic_value := intrinsic, time_value := time_value, entry_price := price,
             stop_price := option_stop, target_price := option_target,
             risk_reward := risk_reward, position_size := position_size,
             moneyness_percent := moneyness_percent, status := status }

/-! ## Claim theorems -/

/-! ### Claims C1 and C3 (Level Engine) -/

/-- A midpoint lies between its two endpoints. -/
lemma between_of_midpoint (a b c : ℚ) (h : c = (a + b) / 2) :
    min a b ≤ c ∧ c ≤ max a b := by
  rcases le_total a b with hab | hab
  · rw [min_eq_left hab, max_eq_right hab]; constructor <;> linarith
  · rw [min_eq_right hab, max_eq_left hab]; constructor <;> linarith

/-- C1 (counterexample): at the reference bar H = 10, L = 0, C = 0 (which has
high ≥ low), the levels of `compute_cpr_levels` violate `bc ≤ pivot` and
`s1 < s2`, and the levels of `compute_pivot_levels` violate `pivot ≤ tc` and
`s1 < s2`; so the claimed ordering `bc ≤ pivot ≤ tc ∧ s1 < s2 < s3 ∧
r1 < r2 < r3` fails for both implementations. -/
theorem claim_C1_counterexample :
    (¬ ((compute_cpr_levels 10 0 0).bc ≤ (compute_cpr_levels 10 0 0).pivot ∧
        (compute_cpr_levels 10 0 0).pivot ≤ (compute_cpr_levels 10 0 0).tc ∧
        (compute_cpr_levels 10 0 0).s1 < (compute_cpr_levels 10 0 0).s2 ∧
        (compute_cpr_levels 10 0 0).s2 < (compute_cpr_levels 10 0 0).s3 ∧
        (compute_cpr_levels 10 0 0).r1 < (compute_cpr_levels 10 0 0).r2 ∧
        (compute_cpr_levels 10 0 0).r2 < (compute_cpr_levels 10 0 0).r3)) ∧
    (¬ ((compute_pivot_levels 10 0 0).bc ≤ (compute_pivot_levels 10 0 0).pivot ∧
        (compute_pivot_levels 10 0 0).pivot ≤ (compute_pivot_levels 10 0 0).tc ∧
        (compute_pivot_levels 10 0 0).s1 < (compute_pivot_levels 10 0 0).s2 ∧
        (compute_pivot_levels 10 0 0).s2 < (compute_pivot_levels 10 0 0).s3 ∧
        (compute_pivot_levels 10 0 0).r1 < (compute_pivot_levels 10 0 0).r2 ∧
        (compute_pivot_levels 10 0 0).r2 < (compute_pivot_levels 10 0 0).r3)) := by
  constructor <;> norm_num [compute_cpr_levels, compute_pivot_levels]

/-- C1 (amended): for every reference bar, `pivot` of `compute_cpr_levels`
lies between `bc` and `tc` (it is their midpoint), and `tc` of
`compute_pivot_levels` lies between `bc` and `pivot` (it is their midpoint);
for a valid bar (L ≤ C ≤ H) supports and resistances are ordered
`s3 ≤ s2 ≤ s1` and `r1 ≤ r2 ≤ r3` in both implementations, strictly when
`L < H`. -/
theorem claim_C1_cpr_ordering (H L C : ℚ) :
    (min (compute_cpr_levels H L C).bc (compute_cpr_levels H L C).tc ≤
        (compute_cpr_levels H L C).pivot ∧
      (compute_cpr_levels H L C).pivot ≤
        max (compute_cpr_levels H L C).bc (compute_cpr_levels H L C).tc ∧
      min (compute_pivot_levels H L C).bc (compute_pivot_levels H L C).pivot ≤
        (compute_pivot_levels H L C).tc ∧
      (compute_pivot_levels H L C).tc ≤
        max (compute_pivot_levels H L C).bc (compute_pivot_levels H L C).pivot) ∧
    (L ≤ H → L ≤ C → C ≤ H →
      ((compute_cpr_levels H L C).s3 ≤ (compute_cpr_levels H L C).s2 ∧
       (compute_cpr_levels H L C).s2 ≤ (compute_cpr_levels H L C).s1 ∧
       (compute_cpr_levels H L C).r1 ≤ (compute_cpr_levels H L C).r2 ∧
       (compute_cpr_levels H L C).r2 ≤ (compute_cpr_levels H L C).r3) ∧
      ((compute_pivot_levels H L C).s3 ≤ (compute_pivot_levels H L C).s2 ∧
       (compute_pivot_levels H L C).s2 ≤ (compute_pivot_levels H L C).s1 ∧
       (compute_pivot_levels H L C).r1 ≤ (compute_pivot_levels H L C).r2 ∧
       (compute_pivot_levels H L C).r2 ≤ (compute_pivot_levels H L C).r3)) ∧
    (L < H → L ≤ C → C ≤ H →
      ((compute_cpr_levels H L C).s3 < (compute_cpr_levels H L C).s2 ∧
       (compute_cpr_levels H L C).s2 < (compute_cpr_levels H L C).s1 ∧
       (compute_cpr_levels H L C).r1 < (compute_cpr_levels H L C).r2 ∧
       (compute_cpr_levels H L C).r2 < (compute_cpr_levels H L C).r3) ∧
      ((compute_pivot_levels H L C).s3 < (compute_pivot_levels H L C).s2 ∧
       (compute_pivot_levels H L C).s2 < (compute_pivot_levels H L C).s1 ∧
       (compute_pivot_levels H L C).r1 < (compute_pivot_levels H L C).r2 ∧
       (compute_pivot_levels H L C).r2 < (compute_pivot_levels H L C).r3)) := by
  refine ⟨⟨?_, ?_, ?_, ?_⟩, fun h1 h2 h3 => ?_, fun h1 h2 h3 => ?_⟩
  · exact (between_of_midpoint _ _ _ (by simp only [compute_cpr_levels]; try ring_nf)).1
  · exact (between_of_midpoint _ _ _ (by simp only [compute_cpr_levels]; try ring_nf)).2
  · exact (between_of_midpoint _ _ _ (by simp only [compute_pivot_levels]; try ring_nf)).1
  · exact (between_of_midpoint _ _ _ (by simp only [compute_pivot_levels]; try ring_nf)).2
  · simp only [compute_cpr_levels, compute_pivot_levels]
    refine ⟨⟨?_, ?_, ?_, ?_⟩, ?_, ?_, ?_, ?_⟩ <;> linarith
  · simp only [compute_cpr_levels, compute_pivot_levels]
    refine ⟨⟨?_, ?_, ?_, ?_⟩, ?_, ?_, ?_, ?_⟩ <;> linarith

/-- C1 (witness): the ordering theorem applied at the concrete valid bar
H = 2, L = 0, C = 1. -/
theorem claim_C1_witness :
    ((compute_cpr_levels 2 0 1).s3 < (compute_cpr_levels 2 0 1).s2 ∧
     (compute_cpr_levels 2 0 1).s2 < (compute_cpr_levels 2 0 1).s1 ∧
     (compute_cpr_levels 2 0 1).r1 < (compute_cpr_levels 2 0 1).r2 ∧
     (compute_cpr_levels 2 0 1).r2 < (compute_cpr_levels 2 0 1).r3) ∧
    ((compute_pivot_levels 2 0 1).s3 < (compute_pivot_levels 2 0 1).s2 ∧
     (compute_pivot_levels 2 0 1).s2 < (compute_pivot_levels 2 0 1).s1 ∧
     (compute_pivot_levels 2 0 1).r1 < (compute_pivot_levels 2 0 1).r2 ∧
     (compute_pivot_levels 2 0 1).r2 < (compute_pivot_levels 2 0 1).r3) :=
  (claim_C1_cpr_ordering 2 0 1).2.2 (by norm_num) (by norm_num) (by norm_num)

/-- C3 (counterexample): at the reference bar H = 2, L = 0, C = 2 the two
implementations disagree on `tc`: `compute_cpr_levels` (matching the spec's
`2*pivot - bc`) yields 5/3 while `compute_pivot_levels` yields 7/6, so the two
implementations do not compute the same levels. -/
theorem claim_C3_counterexample :
    (compute_cpr_levels 2 0 2).tc = 5/3 ∧
    (spec_pivot_levels 2 0 2).tc = 5/3 ∧
    (compute_pivot_levels 2 0 2).tc = 7/6 ∧
    (7/6 : ℚ) ≠ 5/3 := by
  refine ⟨?_, ?_, ?_, ?_⟩ <;> norm_num [compute_cpr_levels, compute_pivot_levels, spec_pivot_levels]

/-- C3 (amended): `compute_cpr_levels` computes exactly the spec's §4.2
formulas for all nine levels, and `compute_pivot_levels` agrees with the spec
on `pivot`, `bc`, `s1`, `r1`, `s2`, `r2`; but `compute_pivot_levels` computes
`tc = (bc + pivot)/2`, `s3 = L - 2*(H - pivot)` and `r3 = H + 2*(pivot - L)`,
which differ from the spec's `tc`, `s3`, `r3` in general. -/
theorem claim_C3_level_refinement (H L C : ℚ) :
    ((compute_cpr_levels H L C).pivot = (spec_pivot_levels H L C).pivot ∧
     (compute_cpr_levels H L C).bc = (spec_pivot_levels H L C).bc ∧
     (compute_cpr_levels H L C).tc = (spec_pivot_levels H L C).tc ∧
     (compute_cpr_levels H L C).s1 = (spec_pivot_levels H L C).s1 ∧
     (compute_cpr_levels H L C).s2 = (spec_pivot_levels H L C).s2 ∧
     (compute_cpr_levels H L C).s3 = (spec_pivot_levels H L C).s3 ∧
     (compute_cpr_levels H L C).r1 = (spec_pivot_levels H L C).r1 ∧
     (compute_cpr_levels H L C).r2 = (spec_pivot_levels H L C).r2 ∧
     (compute_cpr_levels H L C).r3 = (spec_pivot_levels H L C).r3) ∧
    ((compute_pivot_levels H L C).pivot = (spec_pivot_levels H L C).pivot ∧
     (compute_pivot_levels H L C).bc = (spec_pivot_levels H L C).bc ∧
     (compute_pivot_levels H L C).s1 = (spec_pivot_levels H L C).s1 ∧
     (compute_pivot_levels H L C).r1 = (spec_pivot_levels H L C).r1 ∧
     (compute_pivot_levels H L C).s2 = (spec_pivot_levels H L C).s2 ∧
     (compute_pivot_levels H L C).r2 = (spec_pivot_levels H L C).r2) ∧
    ((compute_pivot_levels H L C).tc = ((spec_pivot_levels H L C).bc + (spec_pivot_levels H L C).pivot) / 2 ∧
     (compute_pivot_levels H L C).s3 = L - 2 * (H - (spec_pivot_levels H L C).pivot) ∧
     (compute_pivot_levels H L C).r3 = H + 2 * ((spec_pivot_levels H L C).pivot - L)) := by
  simp only [compute_cpr_levels, compute_pivot_levels, spec_pivot_levels]
  refine ⟨⟨?_, ?_, ?_, ?_, ?_, ?_, ?_, ?_, ?_⟩, ⟨?_, ?_, ?_, ?_, ?_, ?_⟩, ?_, ?_, ?_⟩ <;> ring_nf

/-! ### Claim C4 (Indicator Engine failure semantics) -/

/-- C4 (code bug): on the empty candle sequence every scalar indicator except
the EMAs returns its neutral sentinel (0 for VWAP/ATR/volume-MA, 50 for
RSI/stochastic), but `calculate_emas` evaluates `ema_series[-1]` on an empty
series — an `IndexError`, modelled as `none` — so `compute_indicators` raises
instead of degrading gracefully as the spec requires. -/
theorem claim_C4_empty_input_error :
    compute_indicators [] = none ∧
    calculate_emas [] [9, 21, 50, 200] = none ∧
    calculate_vwap [] = 0 ∧
    calculate_atr [] 14 = 0 ∧
    calculate_rsi [] 14 = 50 ∧
    calculate_stochastic [] 14 = (50, 50) ∧
    calculate_volume_ma [] 20 = 0 := by
  refine ⟨?_, ?_, ?_, ?_, ?_, ?_, ?_⟩ <;>
    norm_num [compute_indicators, calculate_emas, calculate_vwap, calculate_atr,
      calculate_rsi, calculate_stochastic, calculate_volume_ma, ema, takeLast,
      List.mapM, List.mapM.loop]

/-! ### Claim C8 (stochastic %D policies) -/

lemma takeLast_length (xs : List α) (k : ℕ) (h : k ≤ xs.length) :
    (takeLast xs k).length = k := by
  simp only [takeLast, List.length_drop]
  omega

lemma takeLast_isEmpty_false (xs : List α) (k : ℕ) (hk : 0 < k) (h : k ≤ xs.length) :
    (takeLast xs k).isEmpty = false := by
  rw [List.isEmpty_eq_false]
  intro e
  have := takeLast_length xs k h
  rw [e] at this
  simp at this
  omega

lemma takeLast_append_three (xs : List ℚ) (a b c : ℚ) :
    takeLast (xs ++ [a, b, c]) 3 = [a, b, c] := by
  simp only [takeLast, List.length_append, List.length_cons, List.length_nil]
  have : xs.length + (0 + 1 + 1 + 1) - 3 = xs.length := by omega
  rw [this, List.drop_left]

lemma kvalsUpTo_of_le (candles : List Candle) (i : ℕ) (h : i ≤ 13) :
    kvalsUpTo candles i = [] := by
  have : i - 13 = 0 := by omega
  simp [kvalsUpTo, this]

lemma kvalsUpTo_succ (candles : List Candle) (i : ℕ) (h : 13 ≤ i) :
    kvalsUpTo candles (i + 1) = kvalsUpTo candles i ++ [kAt candles i] := by
  have e : i + 1 - 13 = (i - 13) + 1 := by omega
  rw [kvalsUpTo, e, List.range_succ, List.map_append, kvalsUpTo]
  have : 13 + (i - 13) = i := by omega
  simp [this]

lemma kvalsUpTo_length (candles : List Candle) (i : ℕ) :
    (kvalsUpTo candles i).length = i - 13 := by
  simp [kvalsUpTo]

lemma kvalsUpTo_last_three (candles : List Candle) (i : ℕ) (h : 15 ≤ i) :
    kvalsUpTo candles (i + 1) =
      kvalsUpTo candles (i - 2) ++ [kAt candles (i - 2), kAt candles (i - 1), kAt candles i] := by
  have e2 : i - 2 + 1 = i - 1 := by omega
  have e1 : i - 1 + 1 = i := by omega
  have h2 : 13 ≤ i - 2 := by omega
  have h1 : 13 ≤ i - 1 := by omega
  have h0 : 13 ≤ i := by omega
  rw [kvalsUpTo_succ candles i h0, ← e1, kvalsUpTo_succ candles (i - 1) h1, ← e2,
    kvalsUpTo_succ candles (i - 2) h2]
  simp [e2, e1]

lemma stochSeriesLoop_closed_form (candles : List Candle) :
    ∀ fuel i, candles.length - i ≤ fuel →
      stochSeriesLoop candles 14 i (kvalsUpTo candles i) =
        (List.range (candles.length - i)).map (fun m => stochEntry candles (i + m))
  | 0, i, h => by
      have hi : ¬ i < candles.length := by omega
      rw [stochSeriesLoop]
      have e : candles.length - i = 0 := by omega
      simp [hi, e]
  | (fuel + 1), i, h => by
      by_cases hi : i < candles.length
      · have hrange : candles.length - i = (candles.length - (i + 1)) + 1 := by omega
        rw [stochSeriesLoop, dif_pos hi, hrange, List.range_succ_eq_map, List.map_cons,
          List.map_map]
        have hcomp :
            ((fun m => stochEntry candles (i + m)) ∘ Nat.succ) =
              (fun m => stochEntry candles (i + 1 + m)) := by
          funext m
          simp only [Function.comp]
          congr 1
          omega
        by_cases h13 : i < 14 - 1
        · have hk : kvalsUpTo candles (i + 1) = kvalsUpTo candles i := by
            rw [kvalsUpTo_of_le candles i (by omega), kvalsUpTo_of_le candles (i + 1) (by omega)]
          rw [if_pos h13, ← hk,
            stochSeriesLoop_closed_form candles fuel (i + 1) (by omega), hcomp]
          have he : stochEntry candles (i + 0) = (none, none) := by
            simp [stochEntry]
            omega
          rw [he]
        · have h13' : 13 ≤ i := by omega
          rw [if_neg h13]
          dsimp only
          have hwin : stochK ((candles.drop (i + 1 - 14)).take 14) = kAt candles i := rfl
          have hk' : kvalsUpTo candles i ++ [stochK ((candles.drop (i + 1 - 14)).take 14)] =
              kvalsUpTo candles (i + 1) := by
            rw [hwin, kvalsUpTo_succ candles i h13']
          rw [hk', stochSeriesLoop_closed_form candles fuel (i + 1) (by omega), hcomp]
          have hlen : (kvalsUpTo candles (i + 1)).length = i - 12 := by
            rw [kvalsUpTo_length]
            omega
          have he : stochEntry candles (i + 0) =
              (some (kAt candles i),
               if (kvalsUpTo candles (i + 1)).length < 3 then none
               else some ((takeLast (kvalsUpTo candles (i + 1)) 3).sum / 3)) := by
            by_cases h15 : i < 15
            · rw [if_pos (by omega : (kvalsUpTo candles (i + 1)).length < 3)]
              simp only [stochEntry, Nat.add_zero]
              rw [if_neg (by omega : ¬ i < 13), if_pos h15]
            · rw [if_neg (by omega : ¬ (kvalsUpTo candles (i + 1)).length < 3)]
              simp only [stochEntry, Nat.add_zero]
              rw [if_neg (by omega : ¬ i < 13), if_neg h15,
                kvalsUpTo_last_three candles i (by omega), takeLast_append_three]
              simp only [List.sum_cons, List.sum_nil]
              ring_nf
          rw [he, hwin]
      · rw [stochSeriesLoop]
        have e : candles.length - i = 0 := by omega
        simp [hi, e]

/-- C8 (counterexample): on the 16-bar window `ex16` the scalar
`calculate_stochastic` returns %D = 15, while the average of the last three
%K values over trailing 14-bar windows ending at consecutive bars (13, 14,
15) is 14; so the scalar %D is not the consecutive-bar average the claim
states. -/
theorem claim_C8_counterexample :
    (calculate_stochastic ex16 14).2 = 15 ∧
    (stochK ((ex16.drop 0).take 14) + stochK ((ex16.drop 1).take 14) +
        stochK ((ex16.drop 2).take 14)) / 3 = 14 ∧
    (15 : ℚ) ≠ 14 := by
  refine ⟨?_, ?_, by norm_num⟩
  · norm_num [calculate_stochastic, ex16, stochK, takeLast, listMax, listMin,
      List.filterMap_cons]
  · norm_num [ex16, stochK, listMax, listMin]

/-- C8 (amended): the series implementation computes %K over the trailing
14-bar window ending at each bar from index 13 on, and %D as the average of
the last three consecutive-bar %K values, absent (`none`) while fewer than
three exist (`stochEntry`); the scalar implementation instead returns %D as
the average of three %K values over windows of lengths 14, 13 and 12 all
ending at the latest bar, whenever at least 14 candles exist.  The two
implementations therefore use different %D definitions and different
fallback policies. -/
theorem claim_C8_stochastic_policy (candles : List Candle) :
    (14 ≤ candles.length →
      calculate_stochastic candles 14 =
        (stochK (takeLast candles 14),
         (stochK (takeLast candles 14) + stochK (takeLast candles 13) +
            stochK (takeLast candles 12)) / 3)) ∧
    stoch_series candles 14 = (List.range candles.length).map (stochEntry candles) := by
  constructor
  · intro h
    rw [calculate_stochastic, if_neg (by omega : ¬ candles.length < 14)]
    simp only [List.filterMap_cons, List.filterMap_nil]
    rw [takeLast_isEmpty_false candles (14 - 0) (by norm_num) (by omega),
      takeLast_isEmpty_false candles (14 - 1) (by norm_num) (by omega),
      takeLast_isEmpty_false candles (14 - 2) (by norm_num) (by omega)]
    norm_num
    ring_nf
  · have h0 := stochSeriesLoop_closed_form candles candles.length 0 (by omega)
    rw [kvalsUpTo_of_le candles 0 (by omega)] at h0
    rw [stoch_series, h0]
    simp

/-- C8 (witness): the policy theorem applied to the concrete window `ex16`
(which has 16 candles). -/
theorem claim_C8_witness :
    14 ≤ ex16.length ∧
    calculate_stochastic ex16 14 =
      (stochK (takeLast ex16 14),
       (stochK (takeLast ex16 14) + stochK (takeLast ex16 13) +
          stochK (takeLast ex16 12)) / 3) :=
  ⟨by norm_num [ex16], (claim_C8_stochastic_policy ex16).1 (by norm_num [ex16])⟩

/-! ### Claim C2 (signal determinism) -/

lemma generate_signal_timestamp (symbol : String) (candles : List Candle)
    (pivot bc tc s1 r1 risk_per_trade risk_reward : ℚ) (now : ℤ) :
    (generate_signal symbol candles pivot bc tc s1 r1 risk_per_trade risk_reward now).timestamp
      = now := by
  unfold generate_signal
  cases hL : candles.getLast? with
  | none => cases hC : compute_indicators candles <;> rfl
  | some latest_candle =>
    cases hC : compute_indicators candles with
    | none => rfl
    | some ind =>
      dsimp only
      cases hS : scenario_selection candles latest_candle ind pivot bc tc s1 r1 risk_reward with
      | none => rfl
      | some r =>
        obtain ⟨sc, di, e, st, tg, cf, re⟩ := r
        rfl

/-- C2 (counterexample): two invocations of the signal generator on an
identical candle window, identical pivot levels and identical risk
configuration, made at clock instants 0 and 1, return Signals that are not
bit-identical: the `timestamp` field records `datetime.datetime.utcnow()`,
a run-dependent input. -/
theorem claim_C2_counterexample :
    generate_signal "NIFTY" [⟨0, 100, 100, 100, 100, 1000⟩] 100 99 101 98 102 1000 2 0 ≠
    generate_signal "NIFTY" [⟨0, 100, 100, 100, 100, 1000⟩] 100 99 101 98 102 1000 2 1 := by
  intro h
  have h' := congrArg SignalData.timestamp h
  rw [generate_signal_timestamp, generate_signal_timestamp] at h'
  exact absurd h' (by norm_num)

/-- C2 (amended): for every fixed candle window, pivot levels and risk
configuration, all fields of the generated Signal other than `timestamp` are
identical across invocations — the computation's only run-dependent input is
the wall clock recorded in `timestamp`. -/
theorem claim_C2_signal_determinism (symbol : String) (candles : List Candle)
    (pivot bc tc s1 r1 risk_per_trade risk_reward : ℚ) (now1 now2 : ℤ) :
    { generate_signal symbol candles pivot bc tc s1 r1 risk_per_trade risk_reward now1 with
        timestamp := 0 } =
    { generate_signal symbol candles pivot bc tc s1 r1 risk_per_trade risk_reward now2 with
        timestamp := 0 } := by
  unfold generate_signal
  cases hL : candles.getLast? with
  | none => cases hC : compute_indicators candles <;> rfl
  | some latest_candle =>
    cases hC : compute_indicators candles with
    | none => rfl
    | some ind =>
      dsimp only
      cases hS : scenario_selection candles latest_candle ind pivot bc tc s1 r1 risk_reward with
      | none => rfl
      | some r =>
        obtain ⟨sc, di, e, st, tg, cf, re⟩ := r
        rfl

/-! ### Claims C6 and C7 (Black-Scholes pricing) -/

/-- The error function is odd (by reflecting the Gaussian integral). -/
lemma erf_neg (x : ℝ) : erf (-x) = -erf x := by
  have key : (∫ t in (-x)..(0:ℝ), Real.exp (-(t ^ 2))) =
      ∫ t in (0:ℝ)..x, Real.exp (-(t ^ 2)) := by
    have h := intervalIntegral.integral_comp_neg (a := (0:ℝ)) (b := x)
      (f := fun t => Real.exp (-(t ^ 2)))
    simp only [neg_sq, neg_zero] at h
    exact h.symm
  unfold erf
  rw [intervalIntegral.integral_symm (-x) 0, key]
  ring

/-- `norm_cdf x + norm_cdf (−x) = 1`. -/
lemma norm_cdf_add_neg (x : ℝ) : norm_cdf x + norm_cdf (-x) = 1 := by
  unfold norm_cdf
  rw [neg_div, erf_neg]
  ring

/-- C6 (confirmed): whenever `T ≤ 0` or `σ ≤ 0`, `greeks` returns the
option's intrinsic value as the price (`max(S−K,0)` for calls, `max(K−S,0)`
for puts), delta `+1` exactly when the moneyness comparison `S > K` holds
for a call and `−1` otherwise, and exactly zero for gamma, theta, vega and
rho. -/
theorem claim_C6_degenerate_intrinsic (S K T r q sigma : ℝ) (option_type : String)
    (h : T ≤ 0 ∨ sigma ≤ 0) :
    greeks S K T r q sigma option_type =
      .ok ((if option_type = "C" ∧ K < S then 1 else -1), 0, 0, 0, 0,
        if option_type = "C" then max (S - K) 0 else max (K - S) 0) := by
  unfold greeks black_scholes_price
  rw [if_pos h, if_pos h]
  by_cases hty : option_type = "C" <;> simp [hty, gt_iff_lt]

/-- C6 (witness): the degenerate-case theorem applied at
`S = 2, K = 1, T = 0, σ = 1` for a call: the expired in-the-money call is
worth its intrinsic value 1 with delta 1 and zero higher-order Greeks. -/
theorem claim_C6_witness :
    greeks 2 1 0 0 0 1 "C" = .ok (1, 0, 0, 0, 0, 1) := by
  rw [claim_C6_degenerate_intrinsic 2 1 0 0 0 1 "C" (Or.inl le_rfl)]
  norm_num

/-- C7 (confirmed): for positive `S`, `K`, `T`, `σ`, both prices exist and
satisfy put-call parity `call − put = S·e^(−qT) − K·e^(−rT)` exactly (the
spec's "within floating tolerance" holds with zero error in exact real
arithmetic). -/
theorem claim_C7_put_call_parity (S K T r q sigma : ℝ)
    (hS : 0 < S) (hK : 0 < K) (hT : 0 < T) (hsig : 0 < sigma) :
    ∃ c p, black_scholes_price S K T r q sigma "C" = .ok c ∧
      black_scholes_price S K T r q sigma "P" = .ok p ∧
      c - p = S * Real.exp (-q * T) - K * Real.exp (-r * T) := by
  have hcond : ¬ (T ≤ 0 ∨ sigma ≤ 0) := by push_neg; exact ⟨hT, hsig⟩
  have hK0 : ¬ (K = 0) := ne_of_gt hK
  have hSK : ¬ (S / K ≤ 0) := not_le.2 (div_pos hS hK)
  unfold black_scholes_price
  rw [if_neg hcond, if_neg hcond, if_neg hK0, if_neg hK0, if_neg hSK, if_neg hSK]
  simp only [reduceIte, String.reduceEq]
  refine ⟨_, _, rfl, rfl, ?_⟩
  have h1 := norm_cdf_add_neg
    ((Real.log (S / K) + (r - q + 0.5 * sigma * sigma) * T) / (sigma * Real.sqrt T))
  have h2 := norm_cdf_add_neg
    ((Real.log (S / K) + (r - q + 0.5 * sigma * sigma) * T) / (sigma * Real.sqrt T)
      - sigma * Real.sqrt T)
  linear_combination S * Real.exp (-q * T) * h1 - K * Real.exp (-r * T) * h2

/-- C7 (witness): put-call parity applied at `S = 1, K = 1, T = 1, r = 0,
q = 0, σ = 1`. -/
theorem claim_C7_witness :
    ∃ c p, black_scholes_price 1 1 1 0 0 1 "C" = .ok c ∧
      black_scholes_price 1 1 1 0 0 1 "P" = .ok p ∧
      c - p = 1 * Real.exp (-0 * 1) - 1 * Real.exp (-0 * 1) :=
  claim_C7_put_call_parity 1 1 1 0 0 1 (by norm_num) (by norm_num) (by norm_num) (by norm_num)

/-! ### Claim C5 (implied-volatility solver) -/

lemma ivLoop_bounds (S K T r q : ℝ) (option_type : String) (mp tol B : ℝ) (hB : 5 ≤ B) :
    ∀ n sigma v, 1e-4 ≤ sigma → sigma ≤ B →
      ivLoop S K T r q option_type mp tol n sigma = .ok v → 1e-4 ≤ v ∧ v ≤ B
  | 0, sigma, v, h1, h2, h => by
      rw [ivLoop] at h
      rw [Except.ok.injEq] at h
      subst h
      refine ⟨le_max_of_le_left h1, max_le h2 (by linarith)⟩
  | n + 1, sigma, v, h1, h2, h => by
      rw [ivLoop] at h
      cases hg : greeks S K T r q sigma option_type with
      | error e => rw [hg] at h; cases h
      | ok g =>
        obtain ⟨d, gam, th, vega_, rho_, price⟩ := g
        rw [hg] at h
        dsimp only at h
        by_cases htol : |price - mp| < tol
        · rw [if_pos htol, Except.ok.injEq] at h
          subst h
          exact ⟨le_max_of_le_left h1, max_le h2 (by linarith)⟩
        · rw [if_neg htol] at h
          by_cases hveg : vega_ = 0
          · rw [if_pos hveg, Except.ok.injEq] at h
            subst h
            exact ⟨le_max_of_le_left h1, max_le h2 (by linarith)⟩
          · rw [if_neg hveg] at h
            exact ivLoop_bounds S K T r q option_type mp tol B hB n _ v
              (le_max_right _ _)
              (max_le (le_trans (min_le_right _ _) (by linarith)) (by linarith)) h

/-- C5 (amended): the solver iterates Newton-Raphson exactly as the claim
describes, but the clamp into `[1e-4, 5.0]` is applied only after an update;
the initial `σ = max(initial_guess, 1e-4)` is never clamped from above, so
when the solver stops before any update (immediate tolerance hit or zero
vega) it can return a value above 5.0.  Whenever it returns a value, that
value lies in `[1e-4, max(5, max(initial_guess, 1e-4))]` — which is
`[1e-4, 5.0]` whenever the initial guess is at most 5. -/
theorem claim_C5_iv_return_bounds (market_price S K T r q : ℝ) (option_type : String)
    (initial_guess tolerance : ℝ) (max_iterations : ℕ) (v : ℝ)
    (h : implied_volatility market_price S K T r q option_type initial_guess tolerance
        max_iterations = .ok v) :
    1e-4 ≤ v ∧ v ≤ max (max initial_guess 1e-4) 5 := by
  unfold implied_volatility at h
  exact ivLoop_bounds S K T r q option_type market_price tolerance
    (max (max initial_guess 1e-4) 5) (le_max_right _ _) max_iterations
    (max initial_guess 1e-4) v (le_max_right _ _) (le_max_left _ _) h

/-- C5 (counterexample): with market price 0, an expired option
(`T = 0`, so the very first price check hits the tolerance) and initial
guess 10, `implied_volatility` returns 10, outside the claimed range
`[1e-4, 5.0]`. -/
theorem claim_C5_counterexample :
    implied_volatility 0 100 100 0 0 0 "C" 10 1e-4 100 = .ok 10 ∧ ¬ ((10:ℝ) ≤ 5) := by
  refine ⟨?_, by norm_num⟩
  unfold implied_volatility
  rw [show (100:ℕ) = 99 + 1 from by norm_num]
  rw [ivLoop]
  have hg : greeks 100 100 0 0 0 (max 10 1e-4) "C" = .ok (-1, 0, 0, 0, 0, 0) := by
    unfold greeks black_scholes_price
    rw [if_pos (Or.inl le_rfl), if_pos (Or.inl le_rfl)]
    norm_num
  rw [hg]
  norm_num [max_def]

/-- C5 (witness): the bounds theorem applied at a concrete input on which the
solver returns: market price 0, expired call, initial guess 0.25, returning
0.25. -/
theorem claim_C5_witness :
    1e-4 ≤ (0.25:ℝ) ∧ (0.25:ℝ) ≤ max (max 0.25 1e-4) 5 :=
  claim_C5_iv_return_bounds 0 100 100 0 0 0 "C" 0.25 1e-4 100 0.25 (by
    unfold implied_volatility
    rw [show (100:ℕ) = 99 + 1 from by norm_num]
    rw [ivLoop]
    have hg : greeks 100 100 0 0 0 (max 0.25 1e-4) "C" = .ok (-1, 0, 0, 0, 0, 0) := by
      unfold greeks black_scholes_price
      rw [if_pos (Or.inl le_rfl), if_pos (Or.inl le_rfl)]
      norm_num
    rw [hg]
    norm_num [max_def])

/-! ### Claims C9 and C10 (option metrics) -/

/-- C10 (confirmed): whenever `compute_option_metrics` returns a record, the
delta-translated option stop and target are clamped so that
`stop_price ≥ 0.01` and `target_price ≥ stop_price + 0.01`. -/
theorem claim_C10_stop_target_clamped (option_symbol : String)
    (underlying_price r q iv_guess risk_reward : ℝ) (position_size : ℤ)
    (stop_underlying target_underlying risk_per_trade : ℝ) (today : Date)
    (g : OptionGreeks)
    (h : compute_option_metrics option_symbol underlying_price r q iv_guess risk_reward
        position_size stop_underlying target_underlying risk_per_trade today = .ok g) :
    0.01 ≤ g.stop_price ∧ g.stop_price + 0.01 ≤ g.target_price := by
  unfold compute_option_metrics at h
  cases hp : parse_option_symbol option_symbol with
  | error e => rw [hp] at h; cases h
  | ok p4 =>
    obtain ⟨u, expiry_date, strike, opt_type⟩ := p4
    rw [hp] at h
    dsimp only at h
    cases hg : greeks underlying_price strike
        ((((max ((toOrdinal expiry_date : ℤ) - (toOrdinal today : ℤ)) 0 : ℤ)) : ℝ) / 365)
        (r / 100) (q / 100) (max iv_guess 0.0001) opt_type with
    | error e => rw [hg] at h; cases h
    | ok g6 =>
      obtain ⟨delta_, gamma_, theta_, vega_, rho_, price⟩ := g6
      rw [hg] at h
      dsimp only at h
      rw [Except.ok.injEq] at h
      subst h
      exact ⟨le_max_right _ _, le_max_right _ _⟩

/-- C10 (witness): the clamp theorem applied to a concrete expired call
(`NIFTY250417C24000` seen from 2026-01-01), on which the metrics computation
returns. -/
theorem claim_C10_witness :
    ∃ g, compute_option_metrics "NIFTY250417C24000" 100 5 1 0.25 2 1 95 110 1000
        ⟨2026, 1, 1⟩ = .ok g ∧
      0.01 ≤ g.stop_price ∧ g.stop_price + 0.01 ≤ g.target_price := by
  have hp : parse_option_symbol "NIFTY250417C24000" =
      .ok ("NIFTY", ⟨2025, 4, 17⟩, ((24000 : ℕ) : ℝ), "C") := by
    rfl
  have hord : max ((toOrdinal ⟨2025, 4, 17⟩ : ℤ) - (toOrdinal ⟨2026, 1, 1⟩ : ℤ)) 0 = 0 := by
    decide
  have hT : (((max ((toOrdinal ⟨2025, 4, 17⟩ : ℤ) - (toOrdinal ⟨2026, 1, 1⟩ : ℤ)) 0 : ℤ)) : ℝ)
      / 365 = 0 := by
    rw [hord]; norm_num
  have hg : greeks 100 ((24000 : ℕ) : ℝ)
      ((((max ((toOrdinal ⟨2025, 4, 17⟩ : ℤ) - (toOrdinal ⟨2026, 1, 1⟩ : ℤ)) 0 : ℤ)) : ℝ) / 365)
      (5 / 100) (1 / 100) (max 0.25 0.0001) "C" =
      .ok (-1, 0, 0, 0, 0, max (100 - ((24000 : ℕ) : ℝ)) 0) := by
    rw [hT]
    unfold greeks black_scholes_price
    rw [if_pos (Or.inl le_rfl), if_pos (Or.inl le_rfl)]
    norm_num
  cases hcm : compute_option_metrics "NIFTY250417C24000" 100 5 1 0.25 2 1 95 110 1000
      ⟨2026, 1, 1⟩ with
  | error e =>
      exfalso
      unfold compute_option_metrics at hcm
      rw [hp] at hcm
      dsimp only at hcm
      rw [hg] at hcm
      dsimp only at hcm
      exact Except.noConfusion hcm
  | ok g =>
      exact ⟨g, rfl, claim_C10_stop_target_clamped "NIFTY250417C24000" 100 5 1 0.25 2 1 95 110
        1000 ⟨2026, 1, 1⟩ g hcm⟩

/-- C9 (counterexample): `"NIFTY250417C0"` encodes a strike of 0 (a
non-positive strike), yet `compute_option_metrics` (seen from 2026-01-01,
when the option is expired) returns a fully populated record instead of a
validation error: the non-positive strike flows into the pricing arithmetic
and the default `moneyness_percent = 0.0` is substituted. -/
theorem claim_C9_counterexample :
    ∃ g, compute_option_metrics "NIFTY250417C0" 100 5 1 0.25 2 1 95 110 1000 ⟨2026, 1, 1⟩
        = .ok g ∧ g.strike = 0 ∧ g.moneyness_percent = 0 := by
  have hp : parse_option_symbol "NIFTY250417C0" =
      .ok ("NIFTY", ⟨2025, 4, 17⟩, ((0 : ℕ) : ℝ), "C") := by
    rfl
  have hord : max ((toOrdinal ⟨2025, 4, 17⟩ : ℤ) - (toOrdinal ⟨2026, 1, 1⟩ : ℤ)) 0 = 0 := by
    decide
  have hg : greeks 100 ((0 : ℕ) : ℝ)
      ((((max ((toOrdinal ⟨2025, 4, 17⟩ : ℤ) - (toOrdinal ⟨2026, 1, 1⟩ : ℤ)) 0 : ℤ)) : ℝ) / 365)
      (5 / 100) (1 / 100) (max 0.25 0.0001) "C" =
      .ok (1, 0, 0, 0, 0, max (100 - ((0 : ℕ) : ℝ)) 0) := by
    rw [hord]
    unfold greeks black_scholes_price
    rw [if_pos (Or.inl (by norm_num : ((0:ℤ):ℝ)/365 ≤ 0)),
      if_pos (Or.inl (by norm_num : ((0:ℤ):ℝ)/365 ≤ 0))]
    norm_num
  cases hcm : compute_option_metrics "NIFTY250417C0" 100 5 1 0.25 2 1 95 110 1000
      ⟨2026, 1, 1⟩ with
  | error e =>
      exfalso
      unfold compute_option_metrics at hcm
      rw [hp] at hcm
      dsimp only at hcm
      rw [hg] at hcm
      dsimp only at hcm
      exact Except.noConfusion hcm
  | ok g =>
      refine ⟨g, rfl, ?_, ?_⟩ <;>
        · unfold compute_option_metrics at hcm
          rw [hp] at hcm
          dsimp only at hcm
          rw [hg] at hcm
          dsimp only at hcm
          rw [Except.ok.injEq] at hcm
          subst hcm
          norm_num

/-- C9 (amended): an invalid option-symbol encoding does fail fast — a
symbol shorter than 12 characters makes `parse_option_symbol` (and hence
`compute_option_metrics`) raise before any pricing arithmetic — but a
non-positive strike is *not* validated: `compute_option_metrics` on the
strike-0 symbol `"NIFTY250417C0"` (expired, so the degenerate pricing branch
runs) returns a populated record for every choice of the numeric inputs,
substituting the default `moneyness_percent = 0.0` rather than failing at
the boundary. -/
theorem claim_C9_malformed_input_behavior :
    (∀ (symbol : String), symbol.data.length < 12 →
      ∀ (up r q iv rr : ℝ) (ps : ℤ) (su tu rpt : ℝ) (today : Date),
        compute_option_metrics symbol up r q iv rr ps su tu rpt today =
          .error "IndexError: string index out of range") ∧
    (∀ (up r q iv rr : ℝ) (ps : ℤ) (su tu rpt : ℝ) (today : Date),
      toOrdinal ⟨2025, 4, 17⟩ ≤ toOrdinal today →
      ∃ g, compute_option_metrics "NIFTY250417C0" up r q iv rr ps su tu rpt today = .ok g ∧
        g.strike = 0 ∧ g.moneyness_percent = 0) := by
  constructor
  · intro symbol hshort up r q iv rr ps su tu rpt today
    have hp : parse_option_symbol symbol = .error "IndexError: string index out of range" := by
      unfold parse_option_symbol
      dsimp only
      rw [if_pos hshort]
    unfold compute_option_metrics
    rw [hp]
  · intro up r q iv rr ps su tu rpt today htoday
    have hp : parse_option_symbol "NIFTY250417C0" =
        .ok ("NIFTY", ⟨2025, 4, 17⟩, ((0 : ℕ) : ℝ), "C") := by
      rfl
    have hord : max ((toOrdinal ⟨2025, 4, 17⟩ : ℤ) - (toOrdinal today : ℤ)) 0 = 0 := by
      apply max_eq_right
      omega
    have hg : greeks up ((0 : ℕ) : ℝ)
        ((((max ((toOrdinal ⟨2025, 4, 17⟩ : ℤ) - (toOrdinal today : ℤ)) 0 : ℤ)) : ℝ) / 365)
        (r / 100) (q / 100) (max iv 0.0001) "C" =
        .ok ((if ("C" : String) = "C" ∧ ((0 : ℕ) : ℝ) < up then 1 else -1), 0, 0, 0, 0,
          max (up - ((0 : ℕ) : ℝ)) 0) := by
      rw [hord]
      unfold greeks black_scholes_price
      rw [if_pos (Or.inl (by norm_num : ((0:ℤ):ℝ)/365 ≤ 0)),
        if_pos (Or.inl (by norm_num : ((0:ℤ):ℝ)/365 ≤ 0))]
      dsimp only
      rw [if_pos rfl]
    cases hcm : compute_option_metrics "NIFTY250417C0" up r q iv rr ps su tu rpt today with
    | error e =>
        exfalso
        unfold compute_option_metrics at hcm
        rw [hp] at hcm
        dsimp only at hcm
        rw [hg] at hcm
        dsimp only at hcm
        exact Except.noConfusion hcm
    | ok g =>
        refine ⟨g, rfl, ?_, ?_⟩ <;>
          · unfold compute_option_metrics at hcm
            rw [hp] at hcm
            dsimp only at hcm
            rw [hg] at hcm
            dsimp only at hcm
            rw [Except.ok.injEq] at hcm
            subst hcm
            norm_num

/-- C9 (witness): the malformed-input theorem applied at the short symbol
`"NIFTY"` and at the strike-0 symbol seen from 2026-01-01. -/
theorem claim_C9_witness :
    (compute_option_metrics "NIFTY" 100 5 1 0.25 2 1 95 110 1000 ⟨2026, 1, 1⟩ =
      .error "IndexError: string index out of range") ∧
    (∃ g, compute_option_metrics "NIFTY250417C0" 99 5 1 0.25 2 1 95 110 1000 ⟨2026, 1, 1⟩
        = .ok g ∧ g.strike = 0 ∧ g.moneyness_percent = 0) :=
  ⟨claim_C9_malformed_input_behavior.1 "NIFTY" (by decide) 100 5 1 0.25 2 1 95 110 1000
      ⟨2026, 1, 1⟩,
   claim_C9_malformed_input_behavior.2 99 5 1 0.25 2 1 95 110 1000 ⟨2026, 1, 1⟩ (by decide)⟩

end Analytics
